import Mathlib

/-!
Shallow embedding of the summarization core of the `hn-summarizer` repository
(`src/hn_summarizer/`): the data model (`models.py`), the shared normalization
helpers of `summarizers/base.py`, the heuristic summarizer (`summarizers/basic.py`)
and the two model-backed summarizers (`summarizers/ollama.py`, `summarizers/llmapi.py`).

Python strings are modelled as Lean `String`s manipulated through their
underlying `List Char`; Python's whitespace set is modelled by its ASCII part
(the only characters that occur in the repository's data paths).  The network
backends are modelled by an explicit `BackendResult` value: either a raised
transport exception (carrying its message) or the extracted response text.
Python exceptions become `Except String`.
-/

namespace HNS

/-- ASCII part of Python's `str.strip()` / `\s` whitespace set. -/
def pyIsSpace (c : Char) : Bool :=
  c = ' ' || c = '\t' || c = '\n' || c = '\r' || c = '\x0b' || c = '\x0c'

/-- Left part of Python `str.strip()`. -/
def trimLeftL (l : List Char) : List Char := l.dropWhile pyIsSpace

/-- Right part of Python `str.strip()`. -/
def trimRightL (l : List Char) : List Char := (l.reverse.dropWhile pyIsSpace).reverse

/-- Python `str.strip()` on the character list. -/
def pyStripL (l : List Char) : List Char := trimRightL (trimLeftL l)

/-- Python `str.strip()`. -/
def stripS (s : String) : String := String.mk (pyStripL s.data)

/-- Python slicing `s[:n]` (by code points, as Python `str` slicing). -/
def takeS (s : String) (n : Nat) : String := String.mk (s.data.take n)

/-- Prepend a character to the first piece of a split result. -/
def consHead (c : Char) : List (List Char) → List (List Char)
  | [] => [[c]]
  | f :: rest => (c :: f) :: rest

/-- Python `s.split('\n')`: split at every newline, keeping empty pieces. -/
def splitOnNL : List Char → List (List Char)
  | [] => [[]]
  | c :: cs => if c = '\n' then [] :: splitOnNL cs else consHead c (splitOnNL cs)

/-- Pieces between maximal runs of characters satisfying `p`, keeping empty
pieces, as Python `re.split(r'[...]+', s)` produces for a character class. -/
def splitOnRuns (p : Char → Bool) : List Char → List (List Char)
  | [] => [[]]
  | c :: cs =>
    if p c then
      match cs with
      | [] => [] :: splitOnRuns p cs
      | d :: _ => if p d then splitOnRuns p cs else [] :: splitOnRuns p cs
    else consHead c (splitOnRuns p cs)

/-- Prefix test on character lists. -/
def isPrefList : List Char → List Char → Bool
  | [], _ => true
  | _ :: _, [] => false
  | p :: ps, c :: cs => p = c && isPrefList ps cs

/-- Substring occurrence test on character lists. -/
def hasSub (pat : List Char) : List Char → Bool
  | [] => isPrefList pat []
  | c :: cs => isPrefList pat (c :: cs) || hasSub pat cs

/-- `lines = response_text.split('\n'); [line.strip() for line in lines if line.strip()]`,
the shared split-trim-filter step of `base.py` and both response parsers. -/
def splitLines (s : String) : List String :=
  ((splitOnNL s.data).map (fun l => String.mk (pyStripL l))).filter (fun t => t ≠ "")

/-! ## Data model (`models.py`) -/

/-- `models.ArticleContent`. -/
structure ArticleContent where
  title : String
  content : String
  url : String
  extracted_successfully : Bool := true
  error_message : Option String := none
deriving DecidableEq

/-- `models.SummarizerMode`. -/
inductive SummarizerMode where
  | basic
  | ollama
  | llmapi

/-- `models.SummarizerConfig`.  The backend-tuning fields
(`max_tokens`, `temperature`, `model_name`, `ollama_model`) only shape the
outbound network payload, which is abstracted into `BackendResult`, so they are
not carried here. -/
structure SummarizerConfig where
  mode : SummarizerMode
  timeout : Nat := 60
  allow_fallback : Bool := true

/-- `models.EnhancedSummary`. -/
structure EnhancedSummary where
  article_summary : String
  comment_summary : String
  key_points : List String
  related_links : List String
  original_url : String
  hn_discussion_url : String
deriving DecidableEq

/-- Outcome of one backend network invocation: either a raised transport-level
exception (connection error, non-success status, timeout, malformed envelope),
carrying its message, or the response text extracted from the envelope
(`result.get("response", "")` for Ollama,
`result["choices"][0]["message"]["content"]` for the LLM API). -/
inductive BackendResult where
  | failure (message : String)
  | success (text : String)

instance {α β : Type} [DecidableEq α] [DecidableEq β] : DecidableEq (Except α β) := fun x y =>
  match x, y with
  | .ok a, .ok b =>
    if h : a = b then .isTrue (h ▸ rfl) else .isFalse (fun hEq => h (Except.ok.inj hEq))
  | .error a, .error b =>
    if h : a = b then .isTrue (h ▸ rfl) else .isFalse (fun hEq => h (Except.error.inj hEq))
  | .ok _, .error _ => .isFalse (fun hEq => Except.noConfusion hEq)
  | .error _, .ok _ => .isFalse (fun hEq => Except.noConfusion hEq)

/-! ## Shared helpers of `summarizers/base.py` -/

/-- The `while len(lines) < SUMMARY_LINES` padding loop of
`BaseSummarizer._ensure_line_count` (base.py lines 55-67).  Each iteration
appends one line chosen by the current length, so three iterations of fuel
always suffice to reach the loop's exit condition `len(lines) >= 3`. -/
def ensurePadLoop (content : ArticleContent) : Nat → List String → List String
  | 0, lines => lines
  | n + 1, lines =>
    if lines.length < 3 then
      ensurePadLoop content n (lines ++
        [if lines.length = 0 then "Article: " ++ content.title
         else if lines.length = 1 then "Content not available for detailed summarization."
         else "URL: " ++ content.url])
    else lines

/-- `lines = [line.strip() for line in lines if line.strip()]`
(base.py line 45). -/
def filteredLines (lines : List String) : List String :=
  (lines.map stripS).filter (fun l => l ≠ "")

/-- `BaseSummarizer._ensure_line_count` (base.py lines 33-72) with
`SUMMARY_LINES = 3` (config.py line 22). -/
def ensure_line_count (lines : List String) (content : ArticleContent) : List String :=
  if (filteredLines lines).length > 3 then (filteredLines lines).take 3
  else (ensurePadLoop content 3 (filteredLines lines)).take 3

/-- `BaseSummarizer._format_no_content_summary` (base.py lines 74-97). -/
def format_no_content_summary (content : ArticleContent) : List String :=
  let url_display := if content.url.length > 80 then takeS content.url 80 ++ "..." else content.url
  ["Title: " ++ content.title,
   "Content not available for summarization.",
   if url_display ≠ "" then "URL: " ++ url_display else "No URL available"]

/-! ## Heuristic summarizer (`summarizers/basic.py`) -/

namespace BasicSummarizer

/-- Sentence-terminal characters of `re.split(r'[.!?]+', content)`. -/
def isTermChar (c : Char) : Bool := c = '.' || c = '!' || c = '?'

/-- `BasicSummarizer._extract_sentences` (basic.py lines 31-38) with
`MIN_SENTENCE_LENGTH = 20` (config.py line 19). -/
def extract_sentences (content : String) : List String :=
  ((splitOnRuns isTermChar content.data).map (fun s => String.mk (pyStripL s))).filter
    (fun s => s.length > 20)

/-- Truncation of one summary line, `MAX_LINE_LENGTH = 120` (config.py line 23,
basic.py lines 48-49 and 60-61). -/
def truncLine (s : String) : String := if s.length > 120 then takeS s 120 ++ "..." else s

/-- `BasicSummarizer._create_summary_lines` (basic.py lines 40-72). -/
def create_summary_lines (title : String) (sentences : List String) (url : String) : List String :=
  let l1 := "Article: " ++ title
  let l2 := match sentences with
    | [] => "No content available."
    | s :: _ => truncLine s
  let l3 := match sentences with
    | _ :: s2 :: _ => truncLine s2
    | _ => "URL: " ++ url
  [l1, l2, l3]

/-- `BasicSummarizer.summarize` (basic.py lines 16-29). -/
def summarize (content : ArticleContent) : List String :=
  if content.content = "" then format_no_content_summary content
  else ensure_line_count
    (create_summary_lines content.title (extract_sentences content.content) content.url) content

end BasicSummarizer

/-! ## Model-backed response parsing (shared shape of `ollama.py` / `llmapi.py`) -/

/-- The `while len(lines) < 3` padding loop of `_parse_summary_response`
(ollama.py lines 125-131, llmapi.py lines 134-140).  Each iteration appends one
placeholder, so three iterations of fuel always reach `len(lines) >= 3`. -/
def parsePadLoop (pad1 pad2 : String) : Nat → List String → List String
  | 0, lines => lines
  | n + 1, lines =>
    if lines.length < 3 then
      parsePadLoop pad1 pad2 n (lines ++ [if lines.length = 1 then pad1 else pad2])
    else lines

/-- `_parse_summary_response` (ollama.py lines 112-136, llmapi.py lines 121-145):
the two backends differ only in the literal wording of the two placeholders. -/
def parse_summary_response (pad1 pad2 : String) (response_text : String) : List String :=
  let lines := splitLines response_text
  if lines.length ≥ 3 then lines.take 3
  else if lines.length > 0 then (parsePadLoop pad1 pad2 3 lines).take 3
  else []

/-! ## Ollama summarizer (`summarizers/ollama.py`) -/

namespace OllamaSummarizer

/-- Placeholders of `OllamaSummarizer._parse_summary_response` (ollama.py lines 127, 130). -/
def pad1 : String := "Additional details available in full article."

def pad2 : String := "See source for more information."

def parseResponse (response_text : String) : List String :=
  parse_summary_response pad1 pad2 response_text

/-- `OllamaSummarizer._generate_ollama_summary` (ollama.py lines 63-101): the
network call and envelope extraction are abstracted by `backend`; a transport
exception propagates as `.error` with its message. -/
def generate_ollama_summary (cfg : SummarizerConfig) (content : ArticleContent)
    (backend : BackendResult) : Except String (List String) :=
  match backend with
  | .failure msg => .error msg
  | .success raw =>
    let summary_text := stripS raw
    if summary_text ≠ "" then
      .ok (ensure_line_count (parseResponse summary_text) content)
    else if cfg.allow_fallback then .ok (BasicSummarizer.summarize content)
    else .error "Ollama returned empty response. Use --fallback to enable basic mode fallback."

/-- `OllamaSummarizer.summarize` (ollama.py lines 36-49). -/
def summarize (cfg : SummarizerConfig) (content : ArticleContent)
    (backend : BackendResult) : Except String (List String) :=
  if content.content = "" then .ok (format_no_content_summary content)
  else
    match generate_ollama_summary cfg content backend with
    | .ok r => .ok r
    | .error e =>
      if cfg.allow_fallback then .ok (BasicSummarizer.summarize content)
      else .error ("Ollama summarization failed: " ++ e ++
        ". Use --fallback to enable basic mode fallback.")

end OllamaSummarizer

/-! ## LLM API summarizer (`summarizers/llmapi.py`) -/

namespace LLMAPISummarizer

/-- Placeholders of `LLMAPISummarizer._parse_summary_response` (llmapi.py lines 136, 139). -/
def pad1 : String := "Additional context available in source article."

def pad2 : String := "Full details available at source URL."

def parseResponse (response_text : String) : List String :=
  parse_summary_response pad1 pad2 response_text

/-- `LLMAPISummarizer._generate_api_summary` (llmapi.py lines 67-110):
`api_key` models `os.getenv("OPENAI_API_KEY")`; the network call and envelope
extraction are abstracted by `backend`. -/
def generate_api_summary (cfg : SummarizerConfig) (apiKey : Option String)
    (content : ArticleContent) (backend : BackendResult) : Except String (List String) :=
  match apiKey with
  | none =>
    if cfg.allow_fallback then .ok (BasicSummarizer.summarize content)
    else .error "OPENAI_API_KEY environment variable not set. Use --fallback to enable basic mode fallback."
  | some _ =>
    match backend with
    | .failure msg => .error msg
    | .success raw =>
      let summary_text := stripS raw
      if summary_text ≠ "" then
        .ok (ensure_line_count (parseResponse summary_text) content)
      else if cfg.allow_fallback then .ok (BasicSummarizer.summarize content)
      else .error "LLM API returned empty response. Use --fallback to enable basic mode fallback."

/-- `LLMAPISummarizer.summarize` (llmapi.py lines 40-53). -/
def summarize (cfg : SummarizerConfig) (apiKey : Option String) (content : ArticleContent)
    (backend : BackendResult) : Except String (List String) :=
  if content.content = "" then .ok (format_no_content_summary content)
  else
    match generate_api_summary cfg apiKey content backend with
    | .ok r => .ok r
    | .error e =>
      if cfg.allow_fallback then .ok (BasicSummarizer.summarize content)
      else .error ("LLM API summarization failed: " ++ e ++
        ". Use --fallback to enable basic mode fallback.")

end LLMAPISummarizer

/-! ## Enhanced-summary section parsing

`_parse_enhanced_summary_response` is textually identical in ollama.py
(lines 211-300) and llmapi.py (lines 233-322), so it is embedded once.  The two
regular expressions are modelled directly:

* `re.search(r'LABEL:\s*\n(.*?)(?=\n[A-Z_]+:|$)', text, re.DOTALL)` — scan for
  the literal `LABEL:`; `\s*\n` then consumes whitespace up to and including
  the last newline of the maximal whitespace run (greedy `\s*` backtracking
  until a `\n` follows), failing if that run holds no newline; the lazy dotall
  group then captures up to the first position where the lookahead matches.
  Without `re.MULTILINE`, `$` matches at end of text or just before a final
  newline, and the whole pattern always matches once `LABEL:\s*\n` has.
* `re.findall(r'\d+\.\s*(.*?)(?=\n\d+\.|\n[A-Z_]+:|$)', text, re.DOTALL)` —
  `\d+\.` matches a maximal nonempty digit run immediately followed by `.`;
  the greedy `\s*` never needs to backtrack because the `$` alternative of the
  lookahead always lets the lazy group succeed; scanning resumes at the match
  end, which is the capture end since the lookahead is zero-width.
-/

/-- Does `s` start with `[A-Z_]+:` (greedy run of capitals/underscores, then a
colon)? -/
def isSecHeadPref (s : List Char) : Bool :=
  let caps := s.takeWhile (fun c => ('A' ≤ c && c ≤ 'Z') || c = '_')
  match caps, s.drop caps.length with
  | [], _ => false
  | _ :: _, ':' :: _ => true
  | _ :: _, _ => false

/-- Consume `\s*\n`: succeed iff the maximal whitespace run contains a newline,
consuming through the last newline of that run. -/
def consumeWsNl (s : List Char) : Option (List Char) :=
  let run := s.takeWhile pyIsSpace
  let upto := (run.reverse.dropWhile (fun c => c ≠ '\n')).reverse
  if upto = [] then none else some (s.drop upto.length)

/-- Lookahead `(?=\n[A-Z_]+:|$)` of the section pattern at the head of `s`
(the `s = []` case is handled by the caller). -/
def sectionEndHere (s : List Char) : Bool :=
  match s with
  | '\n' :: rest => rest = [] || isSecHeadPref rest
  | _ => false

/-- Lazy dotall capture of the section pattern: the shortest prefix ending
where the lookahead (or end of text) matches. -/
def lazyCaptureSection : List Char → List Char
  | [] => []
  | c :: rest => if sectionEndHere (c :: rest) then [] else c :: lazyCaptureSection rest

/-- Whole section pattern anchored at the head of `s`. -/
def trySectionAt (label : List Char) (s : List Char) : Option (List Char) :=
  if isPrefList (label ++ [':']) s then
    match consumeWsNl (s.drop (label.length + 1)) with
    | some rem => some (lazyCaptureSection rem)
    | none => none
  else none

/-- `re.search` of the section pattern: leftmost position where the whole
pattern matches, returning the captured group. -/
def searchSection (label : List Char) : List Char → Option (List Char)
  | [] => trySectionAt label []
  | c :: cs =>
    match trySectionAt label (c :: cs) with
    | some cap => some cap
    | none => searchSection label cs

/-- `\d+\.` at the head of `s`: maximal nonempty digit run immediately followed
by `.`; returns the remainder after the dot. -/
def matchNum (s : List Char) : Option (List Char) :=
  let ds := s.takeWhile Char.isDigit
  match ds, s.drop ds.length with
  | [], _ => none
  | _ :: _, '.' :: rest => some rest
  | _ :: _, _ => none

/-- Lookahead `(?=\n\d+\.|\n[A-Z_]+:|$)` of the item pattern at the head of a
nonempty `s`. -/
def itemEndHere (s : List Char) : Bool :=
  match s with
  | '\n' :: rest => rest = [] || isSecHeadPref rest || (matchNum rest).isSome
  | _ => false

/-- Lazy dotall capture of the item pattern; also returns the remainder at the
stop position, where `re.findall` resumes scanning. -/
def lazyCaptureItem : List Char → List Char × List Char
  | [] => ([], [])
  | c :: rest =>
    if itemEndHere (c :: rest) then ([], c :: rest)
    else
      let pr := lazyCaptureItem rest
      (c :: pr.1, pr.2)

/-- `re.findall` scan for the item pattern.  Every successful match consumes at
least the two characters of `\d+\.` and every failed position consumes one, so
`s.length` fuel always suffices; fuel runs out only on `s = []`. -/
def findItemsAux : Nat → List Char → List (List Char)
  | 0, _ => []
  | _ + 1, [] => []
  | fuel + 1, c :: rest =>
    match matchNum (c :: rest) with
    | some after =>
      let afterWs := after.dropWhile pyIsSpace
      let pr := lazyCaptureItem afterWs
      pr.1 :: findItemsAux fuel pr.2
    | none => findItemsAux fuel rest

/-- `re.findall(r'\d+\.\s*(.*?)(?=\n\d+\.|\n[A-Z_]+:|$)', s, re.DOTALL)`. -/
def findItems (s : List Char) : List (List Char) := findItemsAux s.length s

/-- The `while len(...) < COUNT` placeholder-padding loop of the numbered-list
sections (ollama.py lines 254-255 and 275-276), `KEY_POINTS_COUNT =
RELATED_LINKS_COUNT = 3` (config.py lines 29-30).  Three iterations of fuel
always reach the exit condition. -/
def padConstLoop (placeholder : String) : Nat → List String → List String
  | 0, l => l
  | n + 1, l => if l.length < 3 then padConstLoop placeholder n (l ++ [placeholder]) else l

/-- One numbered-list section (`KEY_POINTS` / `RELATED_LINKS`) of
`_parse_enhanced_summary_response` (ollama.py lines 244-284): search the label,
`findall` the numbered items on the stripped group, keep the defaults when the
section or the items are missing, otherwise strip, truncate to three and pad. -/
def parseNumberedSection (label : String) (defaults : List String) (placeholder : String)
    (response_text : String) : List String :=
  match searchSection label.data response_text.data with
  | none => defaults
  | some cap =>
    match findItems (pyStripL cap) with
    | [] => defaults
    | items@(_ :: _) =>
      padConstLoop placeholder 3 ((items.take 3).map (fun p => String.mk (pyStripL p)))

/-- One free-text section (`ARTICLE_SUMMARY` / `COMMENT_SUMMARY`) of
`_parse_enhanced_summary_response` (ollama.py lines 226-242). -/
def parseTextSection (label : String) (default : String) (response_text : String) : String :=
  match searchSection label.data response_text.data with
  | none => default
  | some cap => String.mk (pyStripL cap)

/-- `_parse_enhanced_summary_response` (ollama.py lines 211-300, llmapi.py
lines 233-322; the two are identical). -/
def parse_enhanced_summary_response (response_text : String) (content : ArticleContent)
    (story_id : Nat) : EnhancedSummary :=
  { article_summary :=
      parseTextSection "ARTICLE_SUMMARY" "Article summary not available." response_text
    comment_summary :=
      parseTextSection "COMMENT_SUMMARY" "Comment summary not available." response_text
    key_points :=
      parseNumberedSection "KEY_POINTS" (List.replicate 3 "Key insights not available.")
        "Additional insights available in full discussion." response_text
    related_links :=
      parseNumberedSection "RELATED_LINKS" (List.replicate 3 "Related topic research suggested.")
        "Explore related topics in the field." response_text
    original_url := content.url
    hn_discussion_url := "https://news.ycombinator.com/item?id=" ++ toString story_id }

/-- Python `' '.join(l)`. -/
def joinSpace : List String → String
  | [] => ""
  | [s] => s
  | s :: rest => s ++ " " ++ joinSpace rest

/-- Python `s.split()`: pieces between whitespace runs, empties discarded. -/
def pySplitWs (s : String) : List String :=
  ((splitOnRuns pyIsSpace s.data).map String.mk).filter (fun t => t ≠ "")

/-- `_generate_basic_enhanced_summary` (ollama.py lines 302-346, llmapi.py
lines 324-368; identical).  `comments_count` models `len(comments)` and
`commenter_text` the `", ".join(top_commenters)`-or-default string: the latter
is built from `list(set(...))`, whose order Python leaves unspecified (hash
order), so it is passed in rather than computed. -/
def generate_basic_enhanced_summary (content : ArticleContent) (comments_count : Nat)
    (commenter_text : String) (story_id : Nat) : EnhancedSummary :=
  let basic_summary := BasicSummarizer.summarize content
  let article_summary :=
    if basic_summary.length ≥ 2 then joinSpace (basic_summary.take 2)
    else "Article content summarized."
  let comment_summary :=
    if comments_count ≠ 0 then
      "Discussion with " ++ toString comments_count ++ " comments from " ++ commenter_text ++
        " covering various perspectives on the topic."
    else "Limited discussion available for this article."
  let topic_words := if content.title ≠ "" then (pySplitWs content.title).take 3 else ["this topic"]
  { article_summary := article_summary
    comment_summary := comment_summary
    key_points :=
      ["Main article discusses the core topic and its implications",
       "Community discussion provides additional insights and perspectives",
       "Topic represents current trends and developments in the field"]
    related_links :=
      ["Search for more information about " ++ joinSpace topic_words,
       "Explore related discussions on Hacker News",
       "Research current developments in this technology area"]
    original_url := content.url
    hn_discussion_url := "https://news.ycombinator.com/item?id=" ++ toString story_id }

/-! ## Infrastructure lemmas about the string helpers -/

theorem data_append (a b : String) : (a ++ b).data = a.data ++ b.data := by
  cases a; cases b; rfl

theorem pyStripL_eq_nil_iff (l : List Char) :
    pyStripL l = [] ↔ ∀ c ∈ l, pyIsSpace c = true := by
  unfold pyStripL trimRightL trimLeftL
  rw [List.reverse_eq_nil_iff, List.dropWhile_eq_nil_iff]
  constructor
  · intro h c hc
    have hc' : c ∈ l.takeWhile pyIsSpace ++ l.dropWhile pyIsSpace := by
      rw [List.takeWhile_append_dropWhile]; exact hc
    rcases List.mem_append.mp hc' with h1 | h2
    · exact List.mem_takeWhile_imp h1
    · exact h c (List.mem_reverse.mpr h2)
  · intro h c hc
    exact h c (List.dropWhile_sublist pyIsSpace |>.subset (List.mem_reverse.mp hc))

theorem pyStripL_ne_nil {l : List Char} {c : Char} (hc : c ∈ l) (hs : pyIsSpace c = false) :
    pyStripL l ≠ [] := by
  intro h
  have := (pyStripL_eq_nil_iff l).mp h c hc
  simp [hs] at this

theorem mem_pyStripL {l : List Char} {c : Char} (h : c ∈ pyStripL l) : c ∈ l := by
  unfold pyStripL trimRightL trimLeftL at h
  have h1 := List.mem_reverse.mp h
  have h2 := (List.dropWhile_sublist pyIsSpace).subset h1
  have h3 := List.mem_reverse.mp h2
  exact (List.dropWhile_sublist pyIsSpace).subset h3

theorem dropWhile_dropWhile (p : Char → Bool) (l : List Char) :
    (l.dropWhile p).dropWhile p = l.dropWhile p := by
  induction l with
  | nil => rfl
  | cons c cs ih =>
    by_cases h : p c = true
    · rw [List.dropWhile_cons_of_pos h]; exact ih
    · rw [List.dropWhile_cons_of_neg (by simp [h]),
        List.dropWhile_cons_of_neg (by simp [h])]

theorem dropWhile_append_singleton {p : Char → Bool} {c : Char} (hc : p c = false)
    (xs : List Char) : ∃ w, (xs ++ [c]).dropWhile p = w ++ [c] := by
  have hc' : ¬ p c = true := by simp [hc]
  induction xs with
  | nil => exact ⟨[], by simp [List.dropWhile_cons_of_neg hc']⟩
  | cons x xs ih =>
    by_cases h : p x = true
    · simpa [List.dropWhile_cons_of_pos h] using ih
    · exact ⟨x :: xs, by simp [List.dropWhile_cons_of_neg h]⟩

theorem trimRightL_idem (l : List Char) : trimRightL (trimRightL l) = trimRightL l := by
  unfold trimRightL
  rw [List.reverse_reverse, dropWhile_dropWhile]

theorem trimLeftL_trimRightL {l : List Char}
    (h : l.dropWhile pyIsSpace = l) : trimLeftL (trimRightL l) = trimRightL l := by
  unfold trimLeftL trimRightL
  cases l with
  | nil => simp
  | cons e l' =>
    have he : ¬ pyIsSpace e = true := by
      intro hsp
      rw [List.dropWhile_cons_of_pos hsp] at h
      have h1 := (List.dropWhile_sublist (l := l') pyIsSpace).length_le
      rw [h] at h1
      simp at h1
    obtain ⟨w, hw⟩ := dropWhile_append_singleton (by simpa using he) l'.reverse
    rw [List.reverse_cons, hw, List.reverse_append]
    simp only [List.reverse_cons, List.reverse_nil, List.nil_append, List.singleton_append]
    rw [List.dropWhile_cons_of_neg he]

theorem pyStripL_idem (l : List Char) : pyStripL (pyStripL l) = pyStripL l := by
  unfold pyStripL
  have h1 : (trimLeftL l).dropWhile pyIsSpace = trimLeftL l := by
    unfold trimLeftL; exact dropWhile_dropWhile pyIsSpace l
  rw [trimLeftL_trimRightL h1, trimRightL_idem]

theorem stripS_idem (s : String) : stripS (stripS s) = stripS s := by
  unfold stripS
  rw [pyStripL_idem]

theorem stripS_mk_pyStripL (l : List Char) : stripS (String.mk (pyStripL l)) = String.mk (pyStripL l) := by
  unfold stripS
  rw [pyStripL_idem]

theorem mk_eq_empty_iff (l : List Char) : (String.mk l = "") ↔ l = [] := by
  rw [String.ext_iff]

theorem stripS_append_ne (a b : String) (c : Char) (hc : c ∈ a.data)
    (hsp : pyIsSpace c = false) : stripS (a ++ b) ≠ "" := by
  unfold stripS
  rw [Ne, mk_eq_empty_iff, data_append]
  exact pyStripL_ne_nil (List.mem_append_left _ hc) hsp

theorem consHead_ne_nil (c : Char) (r : List (List Char)) : consHead c r ≠ [] := by
  cases r <;> simp [consHead]

theorem splitOnNL_ne_nil : ∀ l : List Char, splitOnNL l ≠ [] := by
  intro l
  cases l with
  | nil => simp [splitOnNL]
  | cons c cs =>
    unfold splitOnNL
    by_cases hc : c = '\n'
    · simp [hc]
    · rw [if_neg hc]
      exact consHead_ne_nil c _

theorem exists_frag_of_mem {l : List Char} {c : Char} (hc : c ∈ l) (hnl : c ≠ '\n') :
    ∃ f ∈ splitOnNL l, c ∈ f := by
  induction l with
  | nil => simp at hc
  | cons d cs ih =>
    unfold splitOnNL
    by_cases hd : d = '\n'
    · rw [if_pos hd]
      have hmem : c ∈ cs := by
        rcases List.mem_cons.mp hc with rfl | hmem
        · exact absurd hd hnl
        · exact hmem
      obtain ⟨f', hf', hcf'⟩ := ih hmem
      exact ⟨f', List.mem_cons_of_mem _ hf', hcf'⟩
    · rw [if_neg hd]
      cases h : splitOnNL cs with
      | nil => exact absurd h (splitOnNL_ne_nil cs)
      | cons f rest =>
        rcases List.mem_cons.mp hc with rfl | hmem
        · exact ⟨c :: f, by simp [consHead], List.mem_cons_self _ _⟩
        · obtain ⟨f', hf', hcf'⟩ := ih hmem
          rw [h] at hf'
          rcases List.mem_cons.mp hf' with rfl | hrest
          · exact ⟨d :: f', by simp [consHead], List.mem_cons_of_mem _ hcf'⟩
          · exact ⟨f', by simp [consHead, hrest], hcf'⟩

theorem splitLines_mem {s x : String} (hx : x ∈ splitLines s) : stripS x = x ∧ x ≠ "" := by
  unfold splitLines at hx
  rw [List.mem_filter] at hx
  obtain ⟨hmap, hne⟩ := hx
  obtain ⟨f, _, rfl⟩ := List.mem_map.mp hmap
  exact ⟨stripS_mk_pyStripL f, by simpa using hne⟩

theorem splitLines_ne_nil {s : String} (h : stripS s ≠ "") : splitLines s ≠ [] := by
  have hex : ∃ c ∈ s.data, pyIsSpace c = false := by
    by_contra hall
    push_neg at hall
    apply h
    unfold stripS
    have hnil : pyStripL s.data = [] := (pyStripL_eq_nil_iff s.data).mpr (fun c hc => by
      have := hall c hc
      simpa using this)
    rw [hnil]
  obtain ⟨c, hc, hsp⟩ := hex
  have hnl : c ≠ '\n' := by
    intro hEq
    rw [hEq] at hsp
    simp [pyIsSpace] at hsp
  obtain ⟨f, hf, hcf⟩ := exists_frag_of_mem hc hnl
  intro hnilSplit
  unfold splitLines at hnilSplit
  rw [List.filter_eq_nil_iff] at hnilSplit
  have hmem : String.mk (pyStripL f) ∈ (splitOnNL s.data).map (fun l => String.mk (pyStripL l)) :=
    List.mem_map_of_mem _ hf
  have := hnilSplit _ hmem
  simp [mk_eq_empty_iff] at this
  exact pyStripL_ne_nil hcf hsp this

theorem filtered_mem {ls : List String} {x : String}
    (hx : x ∈ filteredLines ls) : stripS x = x ∧ x ≠ "" := by
  unfold filteredLines at hx
  rw [List.mem_filter] at hx
  obtain ⟨hmap, hne⟩ := hx
  obtain ⟨y, _, rfl⟩ := List.mem_map.mp hmap
  exact ⟨stripS_idem y, by simpa using hne⟩

theorem ensurePadLoop_stop {content : ArticleContent} {lines : List String}
    (h : ¬ lines.length < 3) : ∀ n, ensurePadLoop content n lines = lines := by
  intro n
  cases n <;> simp [ensurePadLoop, h]

theorem ensurePadLoop_nil (content : ArticleContent) :
    ensurePadLoop content 3 [] =
      ["Article: " ++ content.title, "Content not available for detailed summarization.",
       "URL: " ++ content.url] := by
  simp [ensurePadLoop]

theorem ensurePadLoop_one (content : ArticleContent) (a : String) :
    ensurePadLoop content 3 [a] =
      [a, "Content not available for detailed summarization.", "URL: " ++ content.url] := by
  simp [ensurePadLoop]

theorem ensurePadLoop_two (content : ArticleContent) (a b : String) :
    ensurePadLoop content 3 [a, b] = [a, b, "URL: " ++ content.url] := by
  simp [ensurePadLoop]

theorem strip_article_ne (t : String) : stripS ("Article: " ++ t) ≠ "" :=
  stripS_append_ne _ t 'A' (by decide) (by decide)

theorem strip_url_ne (u : String) : stripS ("URL: " ++ u) ≠ "" :=
  stripS_append_ne _ u 'U' (by decide) (by decide)

theorem strip_title_ne (t : String) : stripS ("Title: " ++ t) ≠ "" :=
  stripS_append_ne _ t 'T' (by decide) (by decide)

/-- The shared line-count enforcer always yields exactly three lines, each
nonempty after trimming, whatever candidate lines it is given. -/
theorem ensure_line_count_spec (ls : List String) (content : ArticleContent) :
    (ensure_line_count ls content).length = 3 ∧
      ∀ x ∈ ensure_line_count ls content, stripS x ≠ "" := by
  unfold ensure_line_count
  have hmem : ∀ x ∈ filteredLines ls, stripS x = x ∧ x ≠ "" := fun x hx => filtered_mem hx
  generalize hf : filteredLines ls = f at hmem ⊢
  by_cases hlen : f.length > 3
  · rw [if_pos hlen]
    refine ⟨by rw [List.length_take]; omega, ?_⟩
    intro x hx
    have h := hmem x (List.take_subset _ _ hx)
    rw [h.1]
    exact h.2
  · rw [if_neg hlen]
    rcases f with _ | ⟨a, _ | ⟨b, _ | ⟨c, _ | ⟨d, t⟩⟩⟩⟩
    · rw [ensurePadLoop_nil]
      refine ⟨by simp, ?_⟩
      intro x hx
      simp only [List.take, List.mem_cons, List.not_mem_nil, or_false] at hx
      rcases hx with rfl | rfl | rfl
      · exact strip_article_ne _
      · decide
      · exact strip_url_ne _
    · rw [ensurePadLoop_one]
      refine ⟨by simp, ?_⟩
      intro x hx
      simp only [List.take, List.mem_cons, List.not_mem_nil, or_false] at hx
      rcases hx with rfl | rfl | rfl
      · have h := hmem x (by simp)
        rw [h.1]; exact h.2
      · decide
      · exact strip_url_ne _
    · rw [ensurePadLoop_two]
      refine ⟨by simp, ?_⟩
      intro x hx
      simp only [List.take, List.mem_cons, List.not_mem_nil, or_false] at hx
      rcases hx with rfl | rfl | rfl
      · have h := hmem x (by simp)
        rw [h.1]; exact h.2
      · have h := hmem x (by simp)
        rw [h.1]; exact h.2
      · exact strip_url_ne _
    · rw [ensurePadLoop_stop (by simp)]
      refine ⟨by simp, ?_⟩
      intro x hx
      have h := hmem x (List.take_subset _ _ hx)
      rw [h.1]; exact h.2
    · simp at hlen

/-- The line-count enforcer is the identity on a list of exactly three
already-trimmed nonempty lines. -/
theorem ensure_line_count_fix {ls : List String} (content : ArticleContent)
    (hlen : ls.length = 3) (hfix : ∀ x ∈ ls, stripS x = x ∧ x ≠ "") :
    ensure_line_count ls content = ls := by
  have hmap : ls.map stripS = ls := by
    conv_rhs => rw [← List.map_id ls]
    exact List.map_congr_left (fun x hx => (hfix x hx).1)
  have hfil : ls.filter (fun l => l ≠ "") = ls :=
    List.filter_eq_self.mpr (fun a ha => by simpa using (hfix a ha).2)
  have h1 : filteredLines ls = ls := by
    unfold filteredLines
    rw [hmap, hfil]
  unfold ensure_line_count
  rw [h1, if_neg (by omega), ensurePadLoop_stop (by omega), List.take_of_length_le (by omega)]

/-- The no-content placeholder: exactly three lines, each nonempty after
trimming. -/
theorem format_no_content_spec (content : ArticleContent) :
    (format_no_content_summary content).length = 3 ∧
      ∀ x ∈ format_no_content_summary content, stripS x ≠ "" := by
  constructor
  · simp [format_no_content_summary]
  · intro x hx
    simp only [format_no_content_summary, List.mem_cons, List.not_mem_nil, or_false] at hx
    rcases hx with rfl | rfl | rfl
    · exact strip_title_ne _
    · decide
    · split <;> split
      · exact strip_url_ne _
      · decide
      · exact strip_url_ne _
      · decide

/-- The heuristic summarizer always yields exactly three lines, each nonempty
after trimming. -/
theorem basic_summarize_spec (content : ArticleContent) :
    (BasicSummarizer.summarize content).length = 3 ∧
      ∀ x ∈ BasicSummarizer.summarize content, stripS x ≠ "" := by
  unfold BasicSummarizer.summarize
  split
  · exact format_no_content_spec content
  · exact ensure_line_count_spec _ content

/-- Every `.ok` result of the Ollama generation step is a normalized
three-line summary. -/
theorem ollama_generate_ok {cfg : SummarizerConfig} {content : ArticleContent}
    {backend : BackendResult} {lines : List String}
    (h : OllamaSummarizer.generate_ollama_summary cfg content backend = .ok lines) :
    lines.length = 3 ∧ ∀ x ∈ lines, stripS x ≠ "" := by
  cases backend with
  | failure msg => simp [OllamaSummarizer.generate_ollama_summary] at h
  | success raw =>
    simp only [OllamaSummarizer.generate_ollama_summary] at h
    split at h
    · injection h with h
      subst h
      exact ensure_line_count_spec _ content
    · split at h
      · injection h with h
        subst h
        exact basic_summarize_spec content
      · simp at h

/-- Every `.ok` result of `OllamaSummarizer.summarize` is a normalized
three-line summary. -/
theorem ollama_summarize_ok {cfg : SummarizerConfig} {content : ArticleContent}
    {backend : BackendResult} {lines : List String}
    (h : OllamaSummarizer.summarize cfg content backend = .ok lines) :
    lines.length = 3 ∧ ∀ x ∈ lines, stripS x ≠ "" := by
  simp only [OllamaSummarizer.summarize] at h
  split at h
  · injection h with h
    subst h
    exact format_no_content_spec content
  · split at h
    · rename_i r heq
      injection h with h
      subst h
      exact ollama_generate_ok heq
    · split at h
      · injection h with h
        subst h
        exact basic_summarize_spec content
      · simp at h

/-- Every `.ok` result of the LLM API generation step is a normalized
three-line summary. -/
theorem llmapi_generate_ok {cfg : SummarizerConfig} {apiKey : Option String}
    {content : ArticleContent} {backend : BackendResult} {lines : List String}
    (h : LLMAPISummarizer.generate_api_summary cfg apiKey content backend = .ok lines) :
    lines.length = 3 ∧ ∀ x ∈ lines, stripS x ≠ "" := by
  cases apiKey with
  | none =>
    simp only [LLMAPISummarizer.generate_api_summary] at h
    split at h
    · injection h with h
      subst h
      exact basic_summarize_spec content
    · simp at h
  | some k =>
    cases backend with
    | failure msg => simp [LLMAPISummarizer.generate_api_summary] at h
    | success raw =>
      simp only [LLMAPISummarizer.generate_api_summary] at h
      split at h
      · injection h with h
        subst h
        exact ensure_line_count_spec _ content
      · split at h
        · injection h with h
          subst h
          exact basic_summarize_spec content
        · simp at h

/-- Every `.ok` result of `LLMAPISummarizer.summarize` is a normalized
three-line summary. -/
theorem llmapi_summarize_ok {cfg : SummarizerConfig} {apiKey : Option String}
    {content : ArticleContent} {backend : BackendResult} {lines : List String}
    (h : LLMAPISummarizer.summarize cfg apiKey content backend = .ok lines) :
    lines.length = 3 ∧ ∀ x ∈ lines, stripS x ≠ "" := by
  simp only [LLMAPISummarizer.summarize] at h
  split at h
  · injection h with h
    subst h
    exact format_no_content_spec content
  · split at h
    · rename_i r heq
      injection h with h
      subst h
      exact llmapi_generate_ok heq
    · split at h
      · injection h with h
        subst h
        exact basic_summarize_spec content
      · simp at h

/-! ## Shape of the model-path response parser -/

theorem parsePadLoop_one (pad1 pad2 a : String) :
    parsePadLoop pad1 pad2 3 [a] = [a, pad1, pad2] := by
  simp [parsePadLoop]

theorem parsePadLoop_two (pad1 pad2 a b : String) :
    parsePadLoop pad1 pad2 3 [a, b] = [a, b, pad2] := by
  simp [parsePadLoop]

theorem parse_ge3 {pad1 pad2 : String} {s : String} (h : (splitLines s).length ≥ 3) :
    parse_summary_response pad1 pad2 s = (splitLines s).take 3 := by
  unfold parse_summary_response
  rw [if_pos h]

theorem parse_one {pad1 pad2 : String} {s a : String} (h : splitLines s = [a]) :
    parse_summary_response pad1 pad2 s = [a, pad1, pad2] := by
  unfold parse_summary_response
  rw [h]
  simp [parsePadLoop]

theorem parse_two {pad1 pad2 : String} {s a b : String} (h : splitLines s = [a, b]) :
    parse_summary_response pad1 pad2 s = [a, b, pad2] := by
  unfold parse_summary_response
  rw [h]
  simp [parsePadLoop]

/-- On any input that still holds a non-whitespace character, the model-path
response parser returns one to three lines, each nonempty after trimming, and
in particular never the empty list. -/
theorem parse_nonempty_spec (pad1 pad2 : String) (hp1 : stripS pad1 ≠ "")
    (hp2 : stripS pad2 ≠ "") {s : String} (h : stripS s ≠ "") :
    parse_summary_response pad1 pad2 s ≠ [] ∧
      1 ≤ (parse_summary_response pad1 pad2 s).length ∧
      (parse_summary_response pad1 pad2 s).length ≤ 3 ∧
      ∀ l ∈ parse_summary_response pad1 pad2 s, stripS l ≠ "" := by
  have hne := splitLines_ne_nil h
  have hmem : ∀ x ∈ splitLines s, stripS x = x ∧ x ≠ "" := fun x hx => splitLines_mem hx
  by_cases hlen : (splitLines s).length ≥ 3
  · rw [parse_ge3 hlen]
    have hl : ((splitLines s).take 3).length = 3 := by
      rw [List.length_take]
      omega
    refine ⟨by intro hnil; rw [hnil] at hl; simp at hl, by omega, by omega, ?_⟩
    intro l hl'
    have hm := hmem l (List.take_subset _ _ hl')
    rw [hm.1]
    exact hm.2
  · rcases hsp : splitLines s with _ | ⟨a, _ | ⟨b, _ | ⟨c, t⟩⟩⟩
    · exact absurd hsp hne
    · rw [parse_one hsp]
      refine ⟨by simp, by simp, by simp, ?_⟩
      intro l hl'
      simp only [List.mem_cons, List.not_mem_nil, or_false] at hl'
      rcases hl' with rfl | rfl | rfl
      · have hm := hmem l (by rw [hsp]; simp)
        rw [hm.1]; exact hm.2
      · exact hp1
      · exact hp2
    · rw [parse_two hsp]
      refine ⟨by simp, by simp, by simp, ?_⟩
      intro l hl'
      simp only [List.mem_cons, List.not_mem_nil, or_false] at hl'
      rcases hl' with rfl | rfl | rfl
      · have hm := hmem l (by rw [hsp]; simp)
        rw [hm.1]; exact hm.2
      · have hm := hmem l (by rw [hsp]; simp)
        rw [hm.1]; exact hm.2
      · exact hp2
    · rw [hsp] at hlen
      simp at hlen

/-! ## Length of the enhanced-summary numbered sections -/

theorem padConstLoop_length (p : String) {l : List String} (h : l.length ≤ 3) :
    (padConstLoop p 3 l).length = 3 := by
  rcases l with _ | ⟨a, _ | ⟨b, _ | ⟨c, _ | ⟨d, t⟩⟩⟩⟩
  · simp [padConstLoop]
  · simp [padConstLoop]
  · simp [padConstLoop]
  · simp [padConstLoop]
  · simp at h

theorem parseNumberedSection_length (label : String) {defaults : List String}
    (hd : defaults.length = 3) (placeholder : String) (s : String) :
    (parseNumberedSection label defaults placeholder s).length = 3 := by
  unfold parseNumberedSection
  split
  · exact hd
  · split
    · exact hd
    · apply padConstLoop_length
      rw [List.length_map]
      exact List.length_take_le _ _

/-! ## Substring facts for the error messages -/

theorem isPrefList_mono {p a : List Char} (h : isPrefList p a = true) (b : List Char) :
    isPrefList p (a ++ b) = true := by
  induction p generalizing a with
  | nil => simp [isPrefList]
  | cons x xs ih =>
    cases a with
    | nil => simp [isPrefList] at h
    | cons y ys =>
      simp only [isPrefList, Bool.and_eq_true] at h ⊢
      exact ⟨h.1, ih h.2⟩

theorem hasSub_of_isPref {p l : List Char} (h : isPrefList p l = true) :
    hasSub p l = true := by
  cases l <;> simp [hasSub, h]

theorem hasSub_nil_pat (b : List Char) : hasSub [] b = true := by
  cases b <;> simp [hasSub, isPrefList]

theorem hasSub_append_left {a p : List Char} (h : hasSub p a = true) (b : List Char) :
    hasSub p (a ++ b) = true := by
  induction a with
  | nil =>
    have hp : p = [] := by
      cases p with
      | nil => rfl
      | cons x xs => simp [hasSub, isPrefList] at h
    rw [hp]
    exact hasSub_nil_pat b
  | cons c cs ih =>
    simp only [hasSub, Bool.or_eq_true] at h
    show hasSub p (c :: (cs ++ b)) = true
    simp only [hasSub, Bool.or_eq_true]
    rcases h with h | h
    · left
      have := isPrefList_mono h b
      simpa using this
    · right
      exact ih h

theorem hasSub_append_right (a : List Char) {b p : List Char} (h : hasSub p b = true) :
    hasSub p (a ++ b) = true := by
  induction a with
  | nil => simpa
  | cons c cs ih =>
    show hasSub p (c :: (cs ++ b)) = true
    simp only [hasSub, Bool.or_eq_true]
    right
    exact ih

/-! ## Concrete fixtures used by the witnesses -/

def testCfgFallback : SummarizerConfig := ⟨SummarizerMode.ollama, 30, true⟩

def testCfgStrict : SummarizerConfig := ⟨SummarizerMode.ollama, 30, false⟩

def testContent : ArticleContent :=
  ⟨"Test Article",
   "This is the first sentence. This is the second sentence with more details. Third sentence here.",
   "https://example.com", true, none⟩

def emptyContent : ArticleContent := ⟨"Empty Article", "", "https://example.com", true, none⟩

/-- An error result carrying a message that names the given backend and holds
the fallback remedy hint. -/
def backendErrorNamed (r : Except String (List String)) (backend : String) : Prop :=
  ∃ msg, r = .error msg ∧ hasSub backend.data msg.data = true ∧
    hasSub ("Use --fallback to enable basic mode fallback").data msg.data = true

/-- Slot-keyed padding of the model-path parser: the pad landing in output
slot 2 (0-indexed 1) is the "additional details" placeholder, the pad landing
in slot 3 is the "see source" placeholder. -/
def modelPads (p1 p2 : String) (n : Nat) : List String := if n = 1 then [p1, p2] else [p2]

/-- Slot-keyed padding of the shared line-count enforcer: a pad performed at
length 0 inserts the title line, at length 1 the fixed explanatory line, at
length 2 the URL line. -/
def basePads (content : ArticleContent) (n : Nat) : List String :=
  if n = 0 then
    ["Article: " ++ content.title, "Content not available for detailed summarization.",
     "URL: " ++ content.url]
  else if n = 1 then
    ["Content not available for detailed summarization.", "URL: " ++ content.url]
  else ["URL: " ++ content.url]

/-! ## Claim theorems -/

/-- C1: for every ArticleContent input and every possible backend response,
whenever summarize returns (rather than raising), the returned list has
exactly N = 3 lines, each non-empty after trimming — for the heuristic,
local-model, and remote-API summarizers alike. -/
theorem C1_summary_shape (cfg : SummarizerConfig) (content : ArticleContent)
    (backend : BackendResult) (apiKey : Option String) (lines : List String)
    (h : BasicSummarizer.summarize content = lines ∨
         OllamaSummarizer.summarize cfg content backend = .ok lines ∨
         LLMAPISummarizer.summarize cfg apiKey content backend = .ok lines) :
    lines.length = 3 ∧ ∀ l ∈ lines, stripS l ≠ "" := by
  rcases h with h | h | h
  · rw [← h]
    exact basic_summarize_spec content
  · exact ollama_summarize_ok h
  · exact llmapi_summarize_ok h

theorem C1_summary_shape_witness :
    (BasicSummarizer.summarize testContent).length = 3 ∧
      ∀ l ∈ BasicSummarizer.summarize testContent, stripS l ≠ "" :=
  C1_summary_shape testCfgFallback testContent (.failure "connection refused") none
    (BasicSummarizer.summarize testContent) (Or.inl rfl)

/-- C2: for every backend failure (transport exception, empty response, or —
for the remote backend — absent credential) with the configuration's
fallback-permission flag true, the output of summarize is byte-identical to
invoking the Heuristic (Basic) Summarizer directly on the same
ArticleContent. -/
theorem C2_fallback_equiv (cfg : SummarizerConfig) (content : ArticleContent)
    (e raw k : String) (b : BackendResult)
    (hf : cfg.allow_fallback = true) (hr : stripS raw = "") :
    OllamaSummarizer.summarize cfg content (.failure e)
      = .ok (BasicSummarizer.summarize content) ∧
    OllamaSummarizer.summarize cfg content (.success raw)
      = .ok (BasicSummarizer.summarize content) ∧
    LLMAPISummarizer.summarize cfg (some k) content (.failure e)
      = .ok (BasicSummarizer.summarize content) ∧
    LLMAPISummarizer.summarize cfg (some k) content (.success raw)
      = .ok (BasicSummarizer.summarize content) ∧
    LLMAPISummarizer.summarize cfg none content b
      = .ok (BasicSummarizer.summarize content) := by
  by_cases hcc : content.content = "" <;>
    refine ⟨?_, ?_, ?_, ?_, ?_⟩ <;>
      simp [OllamaSummarizer.summarize, OllamaSummarizer.generate_ollama_summary,
        LLMAPISummarizer.summarize, LLMAPISummarizer.generate_api_summary,
        BasicSummarizer.summarize, hf, hr, hcc]

theorem C2_fallback_equiv_witness :
    OllamaSummarizer.summarize testCfgFallback testContent (.failure "connection refused")
      = .ok (BasicSummarizer.summarize testContent) ∧
    OllamaSummarizer.summarize testCfgFallback testContent (.success "   ")
      = .ok (BasicSummarizer.summarize testContent) ∧
    LLMAPISummarizer.summarize testCfgFallback (some "sk-key") testContent
        (.failure "connection refused")
      = .ok (BasicSummarizer.summarize testContent) ∧
    LLMAPISummarizer.summarize testCfgFallback (some "sk-key") testContent (.success "   ")
      = .ok (BasicSummarizer.summarize testContent) ∧
    LLMAPISummarizer.summarize testCfgFallback none testContent (.failure "connection refused")
      = .ok (BasicSummarizer.summarize testContent) :=
  C2_fallback_equiv testCfgFallback testContent "connection refused" "   " "sk-key"
    (.failure "connection refused") rfl (by decide)

/-- C3: for every backend failure with the fallback-permission flag false (and
non-empty content body), summarize raises an error whose message names the
backend and includes a remedy hint about enabling fallback, rather than
returning any summary. -/
theorem C3_strict_raises (cfg : SummarizerConfig) (content : ArticleContent)
    (e raw k : String) (b : BackendResult)
    (hf : cfg.allow_fallback = false) (hc : content.content ≠ "") (hr : stripS raw = "") :
    backendErrorNamed (OllamaSummarizer.summarize cfg content (.failure e)) "Ollama" ∧
    backendErrorNamed (OllamaSummarizer.summarize cfg content (.success raw)) "Ollama" ∧
    backendErrorNamed (LLMAPISummarizer.summarize cfg (some k) content (.failure e)) "LLM API" ∧
    backendErrorNamed (LLMAPISummarizer.summarize cfg (some k) content (.success raw)) "LLM API" ∧
    backendErrorNamed (LLMAPISummarizer.summarize cfg none content b) "LLM API" := by
  refine ⟨?_, ?_, ?_, ?_, ?_⟩
  · refine ⟨"Ollama summarization failed: " ++ e ++
      ". Use --fallback to enable basic mode fallback.", ?_, ?_, ?_⟩
    · simp [OllamaSummarizer.summarize, OllamaSummarizer.generate_ollama_summary, hf, hc]
    · rw [data_append, data_append]
      exact hasSub_of_isPref (isPrefList_mono (isPrefList_mono (by decide) _) _)
    · rw [data_append, data_append]
      exact hasSub_append_right _ (by decide)
  · refine ⟨"Ollama summarization failed: " ++
      "Ollama returned empty response. Use --fallback to enable basic mode fallback." ++
      ". Use --fallback to enable basic mode fallback.", ?_, by decide, by decide⟩
    · simp [OllamaSummarizer.summarize, OllamaSummarizer.generate_ollama_summary, hf, hc, hr]
  · refine ⟨"LLM API summarization failed: " ++ e ++
      ". Use --fallback to enable basic mode fallback.", ?_, ?_, ?_⟩
    · simp [LLMAPISummarizer.summarize, LLMAPISummarizer.generate_api_summary, hf, hc]
    · rw [data_append, data_append]
      exact hasSub_of_isPref (isPrefList_mono (isPrefList_mono (by decide) _) _)
    · rw [data_append, data_append]
      exact hasSub_append_right _ (by decide)
  · refine ⟨"LLM API summarization failed: " ++
      "LLM API returned empty response. Use --fallback to enable basic mode fallback." ++
      ". Use --fallback to enable basic mode fallback.", ?_, by decide, by decide⟩
    · simp [LLMAPISummarizer.summarize, LLMAPISummarizer.generate_api_summary, hf, hc, hr]
  · refine ⟨"LLM API summarization failed: " ++
      "OPENAI_API_KEY environment variable not set. Use --fallback to enable basic mode fallback." ++
      ". Use --fallback to enable basic mode fallback.", ?_, by decide, by decide⟩
    · simp [LLMAPISummarizer.summarize, LLMAPISummarizer.generate_api_summary, hf, hc]

theorem C3_strict_raises_witness :
    backendErrorNamed (OllamaSummarizer.summarize testCfgStrict testContent
      (.failure "connection refused")) "Ollama" ∧
    backendErrorNamed (OllamaSummarizer.summarize testCfgStrict testContent
      (.success "   ")) "Ollama" ∧
    backendErrorNamed (LLMAPISummarizer.summarize testCfgStrict (some "sk-key") testContent
      (.failure "connection refused")) "LLM API" ∧
    backendErrorNamed (LLMAPISummarizer.summarize testCfgStrict (some "sk-key") testContent
      (.success "   ")) "LLM API" ∧
    backendErrorNamed (LLMAPISummarizer.summarize testCfgStrict none testContent
      (.failure "connection refused")) "LLM API" :=
  C3_strict_raises testCfgStrict testContent "connection refused" "   " "sk-key"
    (.failure "connection refused") rfl (by decide) (by decide)

/-- C4: for every ArticleContent whose body text is empty, summarize (on any
of the three summarizers) returns the fixed three-line placeholder without
invoking any backend, so no network call, credential check, or
fallback-permission branch is reached: the result does not depend on the
backend outcome, the credential, or the configuration. -/
theorem C4_no_content (cfg : SummarizerConfig) (content : ArticleContent)
    (backend : BackendResult) (apiKey : Option String) (hc : content.content = "") :
    BasicSummarizer.summarize content = format_no_content_summary content ∧
    OllamaSummarizer.summarize cfg content backend = .ok (format_no_content_summary content) ∧
    LLMAPISummarizer.summarize cfg apiKey content backend
      = .ok (format_no_content_summary content) ∧
    (format_no_content_summary content).length = 3 := by
  refine ⟨?_, ?_, ?_, (format_no_content_spec content).1⟩ <;>
    simp [BasicSummarizer.summarize, OllamaSummarizer.summarize, LLMAPISummarizer.summarize, hc]

theorem C4_no_content_witness :
    BasicSummarizer.summarize emptyContent = format_no_content_summary emptyContent ∧
    OllamaSummarizer.summarize testCfgStrict emptyContent (.failure "connection refused")
      = .ok (format_no_content_summary emptyContent) ∧
    LLMAPISummarizer.summarize testCfgStrict none emptyContent (.failure "connection refused")
      = .ok (format_no_content_summary emptyContent) ∧
    (format_no_content_summary emptyContent).length = 3 :=
  C4_no_content testCfgStrict emptyContent (.failure "connection refused") none rfl

/-- C5: for every backend response text — with the four labeled sections
present, absent, or partially filled in any combination — the enhanced parse
(and the deterministic basic-enhanced fallback) returns an EnhancedSummary
whose key_points and related_links lists each have exactly K = 3 entries; in
particular, a response whose KEY_POINTS section contains only 2 numbered items
yields 3 key points, the third being the fixed "additional insights available"
placeholder. -/
theorem C5_enhanced_counts :
    (∀ (response : String) (content : ArticleContent) (story_id : Nat),
        (parse_enhanced_summary_response response content story_id).key_points.length = 3 ∧
        (parse_enhanced_summary_response response content story_id).related_links.length = 3) ∧
    (∀ (content : ArticleContent) (comments_count : Nat) (commenter_text : String)
        (story_id : Nat),
        (generate_basic_enhanced_summary content comments_count commenter_text
            story_id).key_points.length = 3 ∧
        (generate_basic_enhanced_summary content comments_count commenter_text
            story_id).related_links.length = 3) ∧
    (parse_enhanced_summary_response "KEY_POINTS:\n1. First key point\n2. Second key point"
        ⟨"t", "c", "u", true, none⟩ 5).key_points
      = ["First key point", "Second key point",
         "Additional insights available in full discussion."] := by
  refine ⟨?_, ?_, by decide⟩
  · intro response content story_id
    exact ⟨parseNumberedSection_length _ (by simp) _ _,
           parseNumberedSection_length _ (by simp) _ _⟩
  · intro content comments_count commenter_text story_id
    constructor <;> simp [generate_basic_enhanced_summary]

/-! Support for C6: on a nonempty response the model-backed summarize paths
return exactly the parser output (the shared enforcer is the identity there). -/

theorem ollama_success_eq {cfg : SummarizerConfig} {content : ArticleContent} {raw : String}
    (hc : content.content ≠ "") (hr : stripS raw ≠ "") :
    OllamaSummarizer.summarize cfg content (.success raw)
      = .ok (ensure_line_count (OllamaSummarizer.parseResponse (stripS raw)) content) := by
  simp [OllamaSummarizer.summarize, OllamaSummarizer.generate_ollama_summary, hc, hr]

theorem llmapi_success_eq {cfg : SummarizerConfig} {content : ArticleContent} {raw k : String}
    (hc : content.content ≠ "") (hr : stripS raw ≠ "") :
    LLMAPISummarizer.summarize cfg (some k) content (.success raw)
      = .ok (ensure_line_count (LLMAPISummarizer.parseResponse (stripS raw)) content) := by
  simp [LLMAPISummarizer.summarize, LLMAPISummarizer.generate_api_summary, hc, hr]

theorem parse_pad_one {pad1 pad2 : String} (hp1 : stripS pad1 = pad1 ∧ pad1 ≠ "")
    (hp2 : stripS pad2 = pad2 ∧ pad2 ≠ "") (content : ArticleContent) {s a : String}
    (hsp : splitLines s = [a]) :
    ensure_line_count (parse_summary_response pad1 pad2 s) content = [a, pad1, pad2] := by
  rw [parse_one hsp]
  apply ensure_line_count_fix content (by simp)
  intro x hx
  simp only [List.mem_cons, List.not_mem_nil, or_false] at hx
  rcases hx with rfl | rfl | rfl
  · exact splitLines_mem (by rw [hsp]; simp)
  · exact hp1
  · exact hp2

theorem parse_pad_two {pad1 pad2 : String} (hp2 : stripS pad2 = pad2 ∧ pad2 ≠ "")
    (content : ArticleContent) {s a b : String} (hsp : splitLines s = [a, b]) :
    ensure_line_count (parse_summary_response pad1 pad2 s) content = [a, b, pad2] := by
  rw [parse_two hsp]
  apply ensure_line_count_fix content (by simp)
  intro x hx
  simp only [List.mem_cons, List.not_mem_nil, or_false] at hx
  rcases hx with rfl | rfl | rfl
  · exact splitLines_mem (by rw [hsp]; simp)
  · exact splitLines_mem (by rw [hsp]; simp)
  · exact hp2

/-- C6 (corrected): for every model backend response whose parse yields 1 or 2
non-empty trimmed lines (and non-empty content), summarize returns exactly 3
lines in which the original lines are a verbatim prefix and the padding is
keyed to the output slot: slot 2, when padded, carries the "additional
details" placeholder and slot 3 the "see source" placeholder — never the
title/URL padding of the shared enforcer.  The claim's reading that the first
pad always carries the "additional details" placeholder fails when two lines
were parsed (see the counterexample). -/
theorem C6_pad_policy (cfg : SummarizerConfig) (content : ArticleContent) (raw k : String)
    (hc : content.content ≠ "")
    (h : (splitLines (stripS raw)).length = 1 ∨ (splitLines (stripS raw)).length = 2) :
    OllamaSummarizer.summarize cfg content (.success raw)
      = .ok (splitLines (stripS raw) ++
          modelPads OllamaSummarizer.pad1 OllamaSummarizer.pad2
            (splitLines (stripS raw)).length) ∧
    LLMAPISummarizer.summarize cfg (some k) content (.success raw)
      = .ok (splitLines (stripS raw) ++
          modelPads LLMAPISummarizer.pad1 LLMAPISummarizer.pad2
            (splitLines (stripS raw)).length) := by
  have hr : stripS raw ≠ "" := by
    intro hEq
    rw [hEq] at h
    have hempty : splitLines "" = [] := by decide
    rw [hempty] at h
    simp at h
  rcases hsp : splitLines (stripS raw) with _ | ⟨a, _ | ⟨b, _ | ⟨c, t⟩⟩⟩
  · rw [hsp] at h; simp at h
  · refine ⟨?_, ?_⟩
    · rw [ollama_success_eq hc hr]
      unfold OllamaSummarizer.parseResponse
      rw [parse_pad_one (by decide) (by decide) content hsp]
      simp [modelPads]
    · rw [llmapi_success_eq hc hr]
      unfold LLMAPISummarizer.parseResponse
      rw [parse_pad_one (by decide) (by decide) content hsp]
      simp [modelPads]
  · refine ⟨?_, ?_⟩
    · rw [ollama_success_eq hc hr]
      unfold OllamaSummarizer.parseResponse
      rw [parse_pad_two (by decide) content hsp]
      simp [modelPads]
    · rw [llmapi_success_eq hc hr]
      unfold LLMAPISummarizer.parseResponse
      rw [parse_pad_two (by decide) content hsp]
      simp [modelPads]
  · rw [hsp] at h; simp at h

theorem C6_pad_policy_witness :
    OllamaSummarizer.summarize testCfgFallback testContent
        (.success "Only one line from the model")
      = .ok (splitLines (stripS "Only one line from the model") ++
          modelPads OllamaSummarizer.pad1 OllamaSummarizer.pad2
            (splitLines (stripS "Only one line from the model")).length) ∧
    LLMAPISummarizer.summarize testCfgFallback (some "sk-key") testContent
        (.success "Only one line from the model")
      = .ok (splitLines (stripS "Only one line from the model") ++
          modelPads LLMAPISummarizer.pad1 LLMAPISummarizer.pad2
            (splitLines (stripS "Only one line from the model")).length) :=
  C6_pad_policy testCfgFallback testContent "Only one line from the model" "sk-key"
    (by decide) (Or.inl (by decide))

/-- C6 as stated is false: a response parsing to exactly two lines gets its
single (hence first) pad from the "see source" placeholder, not the
"additional details" placeholder. -/
theorem C6_counterexample :
    OllamaSummarizer.summarize ⟨SummarizerMode.ollama, 30, true⟩
        ⟨"Example", "Some body text", "https://example.com", true, none⟩
        (.success "First line of summary.\nSecond line of summary.")
      = .ok ["First line of summary.", "Second line of summary.",
             "See source for more information."] ∧
    "See source for more information." ≠ "Additional details available in full article." := by
  decide

/-- C7 (corrected): the shared line-count enforcer pads by the running length,
not by pad order: a pad performed when the list is empty inserts the title
line, a pad at length 1 inserts the fixed explanatory line, and a pad at
length 2 inserts the URL line, yielding exactly N lines.  The claim's reading
that the first pad always inserts the title line fails whenever at least one
candidate line survives filtering (see the counterexample). -/
theorem C7_pad_order (content : ArticleContent) (lines : List String)
    (h : (filteredLines lines).length < 3) :
    ensure_line_count lines content
      = filteredLines lines ++ basePads content (filteredLines lines).length ∧
    (ensure_line_count lines content).length = 3 := by
  refine ⟨?_, (ensure_line_count_spec lines content).1⟩
  unfold ensure_line_count
  rw [if_neg (by omega)]
  generalize hf : filteredLines lines = f at h ⊢
  rcases f with _ | ⟨a, _ | ⟨b, _ | ⟨c, t⟩⟩⟩
  · rw [ensurePadLoop_nil]
    simp [basePads]
  · rw [ensurePadLoop_one]
    simp [basePads]
  · rw [ensurePadLoop_two]
    simp [basePads]
  · simp only [List.length_cons] at h
    omega

theorem C7_pad_order_witness :
    ensure_line_count ["", "   ", "A single meaningful line"] testContent
      = filteredLines ["", "   ", "A single meaningful line"] ++
          basePads testContent (filteredLines ["", "   ", "A single meaningful line"]).length ∧
    (ensure_line_count ["", "   ", "A single meaningful line"] testContent).length = 3 :=
  C7_pad_order testContent ["", "   ", "A single meaningful line"] (by decide)

/-- C7 as stated is false: with one surviving candidate line the first (and
only first) pad inserts the fixed explanatory line, not a line built from the
title. -/
theorem C7_counterexample :
    ensure_line_count ["A single meaningful line"]
        ⟨"Example Title", "body", "https://example.com", true, none⟩
      = ["A single meaningful line", "Content not available for detailed summarization.",
         "URL: https://example.com"] ∧
    "Content not available for detailed summarization." ≠ "Article: Example Title" := by
  decide

/-- C8: the heuristic summarizer on the given scenario input splits on
sentence-terminal punctuation, discards fragments whose trimmed length is at
or below 20 characters ("Third sentence here" has 19 characters and is
dropped), selects the first two survivors, and returns exactly the three
expected lines. -/
theorem C8_heuristic_scenario :
    BasicSummarizer.summarize testContent
      = ["Article: Test Article", "This is the first sentence",
         "This is the second sentence with more details"] ∧
    BasicSummarizer.extract_sentences
        "This is the first sentence. This is the second sentence with more details. Third sentence here."
      = ["This is the first sentence", "This is the second sentence with more details"] ∧
    ("Third sentence here" : String).length = 19 := by
  decide

theorem ne_empty_of_data_ne {s : String} (h : s.data ≠ []) : s ≠ "" :=
  fun hEq => h (by rw [hEq])

/-- C9 (corrected): with empty body and a URL longer than 80 characters,
line 3 of the summarize output is `"URL: "` followed by the first 80 URL
characters and a truncation ellipsis; its length is therefore always 88, so it
is strictly shorter than the raw URL exactly when the URL exceeds 88
characters — not for every URL longer than 80 (see the counterexample). -/
theorem C9_url_truncation (content : ArticleContent)
    (hc : content.content = "") (hu : 80 < content.url.length) :
    BasicSummarizer.summarize content
      = ["Title: " ++ content.title, "Content not available for summarization.",
         "URL: " ++ (takeS content.url 80 ++ "...")] ∧
    ("URL: " ++ (takeS content.url 80 ++ "...")).length = 88 ∧
    (("URL: " ++ (takeS content.url 80 ++ "...")).length < content.url.length
      ↔ 88 < content.url.length) := by
  have hlen : ("URL: " ++ (takeS content.url 80 ++ "...")).length = 88 := by
    have h1 : (content.url.data.take 80).length = 80 := by
      rw [List.length_take]
      have h2 : 80 < content.url.data.length := hu
      omega
    show ("URL: " ++ (takeS content.url 80 ++ "...")).data.length = 88
    rw [data_append, data_append, List.length_append, List.length_append]
    simp [takeS, h1]
  refine ⟨?_, hlen, by rw [hlen]⟩
  have hne : takeS content.url 80 ++ "..." ≠ "" := by
    apply ne_empty_of_data_ne
    rw [data_append]
    simp
  simp [BasicSummarizer.summarize, format_no_content_summary, hc, hu, hne]

theorem C9_url_truncation_witness :
    BasicSummarizer.summarize ⟨"T", "", String.mk (List.replicate 100 'a'), true, none⟩
      = ["Title: " ++ "T", "Content not available for summarization.",
         "URL: " ++ (takeS (String.mk (List.replicate 100 'a')) 80 ++ "...")] ∧
    ("URL: " ++ (takeS (String.mk (List.replicate 100 'a')) 80 ++ "...")).length = 88 ∧
    (("URL: " ++ (takeS (String.mk (List.replicate 100 'a')) 80 ++ "...")).length
        < (String.mk (List.replicate 100 'a')).length
      ↔ 88 < (String.mk (List.replicate 100 'a')).length) :=
  C9_url_truncation ⟨"T", "", String.mk (List.replicate 100 'a'), true, none⟩ rfl (by decide)

/-- C9 as stated is false: for an 81-character URL the truncated display line
has 88 characters, which is not strictly shorter than the raw URL. -/
theorem C9_counterexample :
    BasicSummarizer.summarize ⟨"T", "", String.mk (List.replicate 81 'a'), true, none⟩
      = ["Title: T", "Content not available for summarization.",
         "URL: " ++ (takeS (String.mk (List.replicate 81 'a')) 80 ++ "...")] ∧
    ("URL: " ++ (takeS (String.mk (List.replicate 81 'a')) 80 ++ "...")).length = 88 ∧
    (String.mk (List.replicate 81 'a')).length = 81 ∧
    ¬ (("URL: " ++ (takeS (String.mk (List.replicate 81 'a')) 80 ++ "...")).length
        < (String.mk (List.replicate 81 'a')).length) := by
  decide

/-- C10: for every response string that is non-empty after whitespace
stripping, each model-path response parser returns between 1 and 3 non-empty
trimmed lines and never the empty list; the "zero parsed lines" branch after a
non-empty backend response is therefore unreachable and the parser's final
empty-list return is dead code. -/
theorem C10_parser_total (s : String) (h : stripS s ≠ "") :
    (OllamaSummarizer.parseResponse s ≠ [] ∧
      1 ≤ (OllamaSummarizer.parseResponse s).length ∧
      (OllamaSummarizer.parseResponse s).length ≤ 3 ∧
      ∀ l ∈ OllamaSummarizer.parseResponse s, stripS l ≠ "") ∧
    (LLMAPISummarizer.parseResponse s ≠ [] ∧
      1 ≤ (LLMAPISummarizer.parseResponse s).length ∧
      (LLMAPISummarizer.parseResponse s).length ≤ 3 ∧
      ∀ l ∈ LLMAPISummarizer.parseResponse s, stripS l ≠ "") := by
  unfold OllamaSummarizer.parseResponse LLMAPISummarizer.parseResponse
  exact ⟨parse_nonempty_spec _ _ (by decide) (by decide) h,
         parse_nonempty_spec _ _ (by decide) (by decide) h⟩

theorem C10_parser_total_witness :
    (OllamaSummarizer.parseResponse "A single meaningful response line" ≠ [] ∧
      1 ≤ (OllamaSummarizer.parseResponse "A single meaningful response line").length ∧
      (OllamaSummarizer.parseResponse "A single meaningful response line").length ≤ 3 ∧
      ∀ l ∈ OllamaSummarizer.parseResponse "A single meaningful response line",
        stripS l ≠ "") ∧
    (LLMAPISummarizer.parseResponse "A single meaningful response line" ≠ [] ∧
      1 ≤ (LLMAPISummarizer.parseResponse "A single meaningful response line").length ∧
      (LLMAPISummarizer.parseResponse "A single meaningful response line").length ≤ 3 ∧
      ∀ l ∈ LLMAPISummarizer.parseResponse "A single meaningful response line",
        stripS l ≠ "") :=
  C10_parser_total "A single meaningful response line" (by decide)

end HNS
